import Mathlib

/-!
Verification development for the GRASS addon `v.disaggregate.population`
(file `v.disaggregate.population.py`).

The script is a straight-line orchestration of external GRASS raster
operations: it checks that the external `v.area.weigh` capability is
installed, masks the region to the urban vector, grows the population
raster by radius 1.01, shrinks the result by radius -1.01, releases the
mask, merges the closed urban-restricted raster with the original raster
by a cell-wise map-algebra expression, and finally delegates to
`v.area.weigh`.  An `atexit`-registered cleanup removes the three
process-id-suffixed intermediate rasters and any active mask.

The embedding models the GRASS data store as a state (named rasters,
named vector footprints, an optional process-wide mask).  Rasters are
total functions from integer grid cells to `Option ℤ` (`none` = nodata).
The semantics of the external raster operations (mask, grow, map
algebra, area-weigh) are not part of this repository; they are modelled
from the specification, see the individual doc comments.  The radius
1.01 of the source is represented exactly as the rational 101/100; on
integer cell-centre distances the comparison `dist ≤ 1.01` is exact, so
the neighbourhood of radius 1.01 is the four axis neighbours plus the
cell itself.
-/

namespace VDisaggPop

/-- A raster cell, identified by its integer grid coordinates. -/
abbrev Cell := ℤ × ℤ

/-- A raster: a value per cell, `none` meaning nodata. -/
abbrev Raster := Cell → Option ℤ

/-- The raster that is nodata everywhere. -/
def emptyRaster : Raster := fun _ => none

/-- The GRASS location state seen by the script: named rasters (a name
maps to `none` when no raster of that name exists), named vector maps
(modelled by their footprint: which cells are covered), and the
process-wide raster mask (`none` when no mask is active). -/
structure GrassState where
  rasters : String → Option Raster
  vectors : String → Cell → Bool
  mask : Option (Cell → Bool)

/-- The five options of the script (parsed by the GRASS parser, which is
out of scope): `population_vector`, `population_column` (optional, may
be the empty string), `population_raster`, `output`, `urban_vector`. -/
structure ScriptOptions where
  population_vector : String
  population_column : String
  population_raster : String
  output : String
  urban_vector : String

/-- Modelled from the spec: the environment of external capabilities.
`hasVAreaWeigh` is the result of `grass.find_program("v.area.weigh")`;
`weigh` is the black-box area-weighted redistribution of the external
`v.area.weigh` module (given the admin vector name, the column name and
the weight raster it produces the output raster; its arithmetic is an
external contract this repository does not implement). -/
structure Env where
  hasVAreaWeigh : Bool
  weigh : String → String → Raster → Raster

/-- Look up a named raster, defaulting to the all-nodata raster. -/
def getR (st : GrassState) (n : String) : Raster :=
  (st.rasters n).getD emptyRaster

/-- Write a named raster into the state. -/
def setR (st : GrassState) (n : String) (r : Raster) : GrassState :=
  { st with rasters := fun m => if m = n then some r else st.rasters m }

/-- Modelled from the spec: while a mask is active, raster reads and
writes are restricted to the masked footprint; outside it every raster
is seen and written as nodata.  With no mask this is the identity. -/
def applyMask (mask : Option (Cell → Bool)) (r : Raster) : Raster :=
  fun c =>
    match mask with
    | none => r c
    | some m => if m c then r c else none

/-- Whether offset `d` lies within euclidean distance `r` of the origin
(cell-centre metric): `dx^2 + dy^2 ≤ r^2`, written with the numerator
and denominator of `r` so that it is integer arithmetic. -/
def withinRadius (r : ℚ) (d : Cell) : Bool :=
  (d.1 * d.1 + d.2 * d.2) * ((r.den : ℤ) * (r.den : ℤ)) ≤ r.num * r.num

/-- The integers `-n, ..., n`. -/
def axisRange (n : ℕ) : List ℤ :=
  (List.range (2 * n + 1)).map (fun i => (i : ℤ) - (n : ℤ))

/-- All offsets within euclidean distance `|r|` of the origin.  The
bound `⌈|r|⌉` on each axis is computed from the numerator and
denominator of `r`.  For `r = 1.01` this list is exactly the four axis
neighbours plus the origin, since the nearest diagonal is at distance
`√2 > 1.01`. -/
def offsets (r : ℚ) : List Cell :=
  let n : ℕ := (r.num.natAbs + (r.den - 1)) / r.den
  ((axisRange n).map (fun dx => (axisRange n).filterMap
    (fun dy => if withinRadius r (dx, dy) then some (dx, dy) else none))).flatten

/-- Modelled from the spec: one cell of the grow (dilation) pass of
`r.grow` with positive radius.  A cell with data keeps its value; a
nodata cell within the radius of a cell with data acquires a defined
value (taken from the first such neighbour in a fixed scan order; the
spec only promises that the cell becomes defined). -/
def growCell (r : ℚ) (inp : Raster) (c : Cell) : Option ℤ :=
  match inp c with
  | some v => some v
  | none => ((offsets r).filterMap (fun d => inp (c.1 + d.1, c.2 + d.2))).head?

/-- Modelled from the spec: one cell of the shrink (erosion) pass of
`r.grow` with negative radius `-r`: a cell with data that is within
distance `r` of a nodata cell becomes nodata. -/
def shrinkCell (r : ℚ) (inp : Raster) (c : Cell) : Option ℤ :=
  match inp c with
  | none => none
  | some v =>
      if (offsets r).all (fun d => (inp (c.1 + d.1, c.2 + d.2)).isSome)
      then some v else none

/-- Modelled from the spec: the raster-grow capability; a positive
radius dilates, a negative radius shrinks. -/
def rGrowFn (radius : ℚ) (inp : Raster) : Raster :=
  if 0 ≤ radius then fun c => growCell radius inp c
  else fun c => shrinkCell (-radius) inp c

/-- The radius `1.01` of the source, exactly: `101/100`. -/
def radGrow : ℚ := mkRat 101 100

/-- The radius `-1.01` of the source, exactly: `-101/100`. -/
def radShrink : ℚ := mkRat (-101) 100

/-- Embedding of `grass.run_command("r.mask", vector=...)` (source line
111): activate the mask with the footprint of the named vector map. -/
def r_mask_set (st : GrassState) (vect : String) : GrassState :=
  { st with mask := some (st.vectors vect) }

/-- Embedding of `grass.run_command("r.mask", flags="r")` in `main`
(source line 123): release the mask. -/
def r_mask_remove (st : GrassState) : GrassState :=
  { st with mask := none }

/-- Embedding of `grass.run_command("r.grow", input=..., output=...,
radius=...)` (source lines 117-122): the input is read through the
active mask, and the output is written only inside the active mask. -/
def r_grow (st : GrassState) (input output : String) (radius : ℚ) : GrassState :=
  setR st output (applyMask st.mask (rGrowFn radius (applyMask st.mask (getR st input))))

/-- Embedding of `grass.run_command("r.mapcalc", expression="out =
if(isnull(a), b, c)")` (source lines 128-132), the only map-algebra
shape the script uses.  Reads and the write go through the active mask
(none is active at the merge step of this script). -/
def r_mapcalc_if_isnull (st : GrassState) (out a b c : String) : GrassState :=
  setR st out (applyMask st.mask (fun cell =>
    if (applyMask st.mask (getR st a) cell).isNone
    then applyMask st.mask (getR st b) cell
    else applyMask st.mask (getR st c) cell))

/-- Embedding of `grass.run_command("v.area.weigh", vector=..., column=...,
weight=..., output=...)` (source lines 134-140): the external capability
is applied to the column and weight raster and its result is written
under the output name. -/
def v_area_weigh (env : Env) (st : GrassState) (vect col weight output : String) :
    GrassState :=
  setR st output (applyMask st.mask (env.weigh vect col (getR st weight)))

/-- The name `"%s_grownbyone_%s" % (population_raster, pid)` (line 113). -/
def grownName (population_raster : String) (pid : ℕ) : String :=
  population_raster ++ "_grownbyone_" ++ toString pid

/-- The name `"%s_shrunkbyone_%s" % (population_raster, pid)` (line 115). -/
def shrunkName (population_raster : String) (pid : ℕ) : String :=
  population_raster ++ "_shrunkbyone_" ++ toString pid

/-- The name `"pop_raster_temp_%s" % pid` (line 126). -/
def popTempName (pid : ℕ) : String :=
  "pop_raster_temp_" ++ toString pid

/-- The remediation instruction of the fatal diagnostic (line 107). -/
def remediationMsg : String := "g.extension v.area.weigh"

/-- The fatal diagnostic issued when `v.area.weigh` is not installed
(lines 104-108); it ends with the remediation instruction. -/
def vAreaWeighMissingMsg : String :=
  "The v.area.weigh module was not found, install it first:" ++ "\n" ++ remediationMsg

/-- One entry of the trace of external operations invoked by `main`, in
invocation order. -/
inductive Op where
  | maskSet (vect : String)
  | grow (input output : String) (radius : ℚ)
  | maskRelease
  | mapcalcIfIsnull (out a b c : String)
  | areaWeigh (vect col weight output : String)

/-- The outcome of a run of `main`: the fatal diagnostic if one was
issued, the final state, the trace of external operations invoked, and
the accumulated `rm_rasters` cleanup list. -/
structure RunResult where
  fatal : Option String
  state : GrassState
  trace : List Op
  rmRasters : List String

/-- Embedding of `main()` (source lines 91-142).  The `v.area.weigh`
capability check comes first (lines 102-108); when it fails the script
terminates fatally having invoked no raster operation.  Otherwise the
operations run in source order: mask to the urban vector, grow by 1.01,
grow by -1.01, release the mask, merge by map algebra, area-weigh.  The
names of the three intermediate rasters are appended to `rm_rasters`
exactly where the source appends them (lines 114, 116, 127). -/
def main (env : Env) (o : ScriptOptions) (pid : ℕ) (st : GrassState) : RunResult :=
  if env.hasVAreaWeigh then
    let dense := o.urban_vector
    let st1 := r_mask_set st dense
    let temp_grow1 := grownName o.population_raster pid
    let temp_grow2 := shrunkName o.population_raster pid
    let st2 := r_grow st1 o.population_raster temp_grow1 radGrow
    let st3 := r_grow st2 temp_grow1 temp_grow2 radShrink
    let st4 := r_mask_remove st3
    let pop_raster_new := popTempName pid
    let st5 := r_mapcalc_if_isnull st4 pop_raster_new o.population_raster temp_grow2
      o.population_raster
    let st6 := v_area_weigh env st5 o.population_vector o.population_column
      pop_raster_new o.output
    { fatal := none
      state := st6
      trace := [Op.maskSet dense,
                Op.grow o.population_raster temp_grow1 radGrow,
                Op.grow temp_grow1 temp_grow2 radShrink,
                Op.maskRelease,
                Op.mapcalcIfIsnull pop_raster_new o.population_raster temp_grow2
                  o.population_raster,
                Op.areaWeigh o.population_vector o.population_column pop_raster_new
                  o.output]
      rmRasters := [temp_grow1, temp_grow2, pop_raster_new] }
  else
    { fatal := some vAreaWeighMissingMsg
      state := st
      trace := []
      rmRasters := [] }

/-- Embedding of `grass.find_file(name=n, element="raster")["file"]`
truthiness for an ordinary raster name (source line 82). -/
def find_file_raster (st : GrassState) (n : String) : Bool :=
  (st.rasters n).isSome

/-- Whether an active mask is visible as the `MASK` raster, which is
what `grass.find_file(name="MASK", element="raster")` reports (source
line 84). -/
def mask_file_present (st : GrassState) : Bool :=
  st.mask.isSome

/-- Embedding of `grass.run_command("g.remove", type="raster", name=n,
flags="f")` (source line 83): fallible — removing a raster that does not
exist is an error. -/
def g_remove_raster (st : GrassState) (n : String) : Except String GrassState :=
  if (st.rasters n).isSome then
    Except.ok { st with rasters := fun m => if m = n then none else st.rasters m }
  else
    Except.error "raster not found"

/-- Embedding of `grass.run_command("r.mask", flags="r")` as a fallible
call (source line 86): releasing when no mask is active is an error. -/
def r_mask_release_f (st : GrassState) : Except String GrassState :=
  if st.mask.isSome then Except.ok { st with mask := none }
  else Except.error "no mask active"

/-- The `try: r.mask -r except: pass` of the source (lines 85-88): a
failure of the release is swallowed and the state kept. -/
def tryRelease (st : GrassState) : GrassState :=
  match r_mask_release_f st with
  | Except.ok s => s
  | Except.error _ => st

/-- The body of the cleanup loop (lines 81-83): remove the raster only
if `find_file` reports it present. -/
def removeIfPresent (s : GrassState) (n : String) : Except String GrassState :=
  if find_file_raster s n then g_remove_raster s n else pure s

/-- Pure description of one guarded removal, used to state what the
fallible loop computes. -/
def removePure (s : GrassState) (n : String) : GrassState :=
  if find_file_raster s n then
    { s with rasters := fun m => if m = n then none else s.rasters m }
  else s

/-- Embedding of `cleanup()` (source lines 78-88): for each registered
raster, remove it if it is present; then, if a mask is active (the
`MASK` raster is present), release it inside a `try`/`except`. -/
def cleanup (rm : List String) (st : GrassState) : Except String GrassState := do
  let st1 ← rm.foldlM removeIfPresent st
  if mask_file_present st1 then pure (tryRelease st1) else pure st1

/-- Step `j` of the run (1 = mask set, 2 = grow, 3 = shrink, 4 = mask
release, 5 = merge, 6 = area-weigh), as a state transformer; no step
runs when the capability check failed. -/
def applyStep (env : Env) (o : ScriptOptions) (pid : ℕ) (j : ℕ) (st : GrassState) :
    GrassState :=
  if env.hasVAreaWeigh then
    if j = 1 then r_mask_set st o.urban_vector
    else if j = 2 then
      r_grow st o.population_raster (grownName o.population_raster pid) radGrow
    else if j = 3 then
      r_grow st (grownName o.population_raster pid)
        (shrunkName o.population_raster pid) radShrink
    else if j = 4 then r_mask_remove st
    else if j = 5 then
      r_mapcalc_if_isnull st (popTempName pid) o.population_raster
        (shrunkName o.population_raster pid) o.population_raster
    else if j = 6 then
      v_area_weigh env st o.population_vector o.population_column
        (popTempName pid) o.output
    else st
  else st

/-- The state after the first `k` steps of the run; a run that
terminates by an error during step `k+1` leaves this state for the
`atexit` cleanup. -/
def stateAfter (env : Env) (o : ScriptOptions) (pid : ℕ) (st : GrassState) :
    ℕ → GrassState
  | 0 => st
  | k + 1 => applyStep env o pid (k + 1) (stateAfter env o pid st k)

/-- The `rm_rasters` list visible to cleanup once the run has entered
step `j`.  The source appends `temp_grow1` and `temp_grow2` just before
the first grow, which is step 2 (lines 113-116), and `pop_raster_new`
just before the map-algebra merge, which is step 5 (lines 126-127); a
run that fails during step `j` therefore registered the additions of
steps `1..j`. -/
def rmAfter (env : Env) (o : ScriptOptions) (pid : ℕ) (j : ℕ) : List String :=
  (if env.hasVAreaWeigh ∧ 2 ≤ j then
    [grownName o.population_raster pid, shrunkName o.population_raster pid]
   else []) ++
  (if env.hasVAreaWeigh ∧ 5 ≤ j then [popTempName pid] else [])

/-- The urban-restricted grown raster: the result the script stores
under `temp_grow1` when the mask is the urban footprint. -/
def grownRaster (urban : Cell → Bool) (r : Raster) : Raster :=
  applyMask (some urban) (rGrowFn radGrow (applyMask (some urban) r))

/-- The urban-restricted closed (grown then shrunk) raster: the result
the script stores under `temp_grow2`. -/
def closedRaster (urban : Cell → Bool) (r : Raster) : Raster :=
  applyMask (some urban) (rGrowFn radShrink (applyMask (some urban) (grownRaster urban r)))

/-- The composite weighting raster the merge step builds: the original
raster where it has data, the closed urban-restricted raster where the
original is nodata. -/
def compositeRaster (urban : Cell → Bool) (r : Raster) : Raster :=
  fun c => if (r c).isNone then closedRaster urban r c else r c

/-- The three intermediate raster names of a run, in registration
order. -/
def tempNames (o : ScriptOptions) (pid : ℕ) : List String :=
  [grownName o.population_raster pid, shrunkName o.population_raster pid,
   popTempName pid]

/-- The mask part of `cleanup` as a pure function: release the mask if
one is active, tolerating a failure of the release. -/
def maskClearPure (st : GrassState) : GrassState :=
  if mask_file_present st then tryRelease st else st

/-- A concrete environment with `v.area.weigh` installed; its external
arithmetic is irrelevant to the claims and instantiated as the identity
on the weight raster. -/
def envOk : Env := { hasVAreaWeigh := true, weigh := fun _ _ r => r }

/-- A concrete environment in which `v.area.weigh` is not installed. -/
def envAbsent : Env := { hasVAreaWeigh := false, weigh := fun _ _ r => r }

/-- Concrete options used by the witnesses. -/
def demoOpts : ScriptOptions :=
  { population_vector := "admin"
    population_column := "pop"
    population_raster := "density"
    output := "result"
    urban_vector := "urban" }

/-- The options with the optional `population_column` left empty. -/
def demoOptsNoCol : ScriptOptions :=
  { population_vector := "admin"
    population_column := ""
    population_raster := "density"
    output := "result"
    urban_vector := "urban" }

/-- A density raster with data exactly at the two cells `(0,0)` and
`(2,0)`, separated by the single nodata cell `(1,0)`. -/
def gapRaster : Raster := fun c =>
  if c = ((0 : ℤ), (0 : ℤ)) ∨ c = ((2 : ℤ), (0 : ℤ)) then some 1 else none

/-- A state holding `gapRaster` under the name `density`, with every
vector map covering the whole plane (everything urban). -/
def gapState : GrassState :=
  { rasters := fun n => if n = "density" then some gapRaster else none
    vectors := fun _ _ => true
    mask := none }

/-- A density raster with two three-cell-tall walls at `x = 0` and
`x = 2` separated by the one-cell-wide nodata column `x = 1`. -/
def wallRaster : Raster := fun c =>
  if (c.1 = 0 ∨ c.1 = 2) ∧ -2 ≤ c.2 ∧ c.2 ≤ 2 then some 1 else none

/-- A state holding `wallRaster` under the name `density`, everything
urban. -/
def wallState : GrassState :=
  { rasters := fun n => if n = "density" then some wallRaster else none
    vectors := fun _ _ => true
    mask := none }

/-- A state holding `gapRaster` whose `urban` vector covers only the
half plane `x ≤ 5`. -/
def halfUrbanState : GrassState :=
  { rasters := fun n => if n = "density" then some gapRaster else none
    vectors := fun v c => if v = "urban" then decide (c.1 ≤ 5) else false
    mask := none }

/-- A state holding `gapRaster` whose vector maps are all empty (the
urban extent covers zero area). -/
def emptyUrbanState : GrassState :=
  { rasters := fun n => if n = "density" then some gapRaster else none
    vectors := fun _ _ => false
    mask := none }

theorem getR_setR_same (st : GrassState) (n : String) (r : Raster) :
    getR (setR st n r) n = r := by
  simp [getR, setR]

theorem getR_setR_ne {st : GrassState} {n m : String} {r : Raster} (h : m ≠ n) :
    getR (setR st n r) m = getR st m := by
  simp [getR, setR, h]

theorem applyMask_none_apply (r : Raster) (c : Cell) : applyMask none r c = r c := rfl

theorem getR_mask_remove (st : GrassState) (n : String) :
    getR (r_mask_remove st) n = getR st n := rfl

theorem getR_mask_set (st : GrassState) (v n : String) :
    getR (r_mask_set st v) n = getR st n := rfl

theorem mask_mask_remove (st : GrassState) : (r_mask_remove st).mask = none := rfl

theorem mask_mask_set (st : GrassState) (v : String) :
    (r_mask_set st v).mask = some (st.vectors v) := rfl

theorem mask_grow (st : GrassState) (i o' : String) (r : ℚ) :
    (r_grow st i o' r).mask = st.mask := rfl

theorem getR_grow_same (st : GrassState) (i o' : String) (r : ℚ) :
    getR (r_grow st i o' r) o' =
      applyMask st.mask (rGrowFn r (applyMask st.mask (getR st i))) :=
  getR_setR_same _ _ _

theorem getR_grow_ne {st : GrassState} {i o' n : String} {r : ℚ} (h : n ≠ o') :
    getR (r_grow st i o' r) n = getR st n :=
  getR_setR_ne h

theorem mask_setR (st : GrassState) (n : String) (r : Raster) :
    (setR st n r).mask = st.mask := rfl

theorem grownName_ne_base (R : String) (pid : ℕ) : grownName R pid ≠ R := by
  intro h
  have hl := congrArg String.length h
  simp only [grownName, String.length_append] at hl
  have h12 : ("_grownbyone_" : String).length = 12 := rfl
  rw [h12] at hl
  omega

theorem shrunkName_ne_base (R : String) (pid : ℕ) : shrunkName R pid ≠ R := by
  intro h
  have hl := congrArg String.length h
  simp only [shrunkName, String.length_append] at hl
  have h13 : ("_shrunkbyone_" : String).length = 13 := rfl
  rw [h13] at hl
  omega

theorem grownName_ne_shrunkName (R : String) (pid : ℕ) :
    grownName R pid ≠ shrunkName R pid := by
  intro h
  have hl := congrArg String.length h
  simp only [grownName, shrunkName, String.length_append] at hl
  have h12 : ("_grownbyone_" : String).length = 12 := rfl
  have h13 : ("_shrunkbyone_" : String).length = 13 := rfl
  rw [h12, h13] at hl
  omega

theorem main_state_eq (env : Env) (o : ScriptOptions) (pid : ℕ) (st : GrassState)
    (hw : env.hasVAreaWeigh = true) :
    (main env o pid st).state =
      v_area_weigh env
        (r_mapcalc_if_isnull
          (r_mask_remove
            (r_grow
              (r_grow (r_mask_set st o.urban_vector) o.population_raster
                (grownName o.population_raster pid) radGrow)
              (grownName o.population_raster pid)
              (shrunkName o.population_raster pid) radShrink))
          (popTempName pid) o.population_raster
          (shrunkName o.population_raster pid) o.population_raster)
        o.population_vector o.population_column (popTempName pid) o.output := by
  simp [main, hw]

/-- C1: if the `v.area.weigh` capability is absent, `main` terminates
with the fatal diagnostic (which carries the remediation instruction
`g.extension v.area.weigh`), invokes no external raster operation (its
trace is empty, so no masking, growing or merging is attempted), leaves
the raster store untouched (in particular no output raster is produced),
and registers nothing for cleanup. -/
theorem missing_capability_fail_fast (env : Env) (o : ScriptOptions) (pid : ℕ)
    (st : GrassState) (hw : env.hasVAreaWeigh = false) :
    (main env o pid st).fatal =
        some ("The v.area.weigh module was not found, install it first:" ++ "\n" ++
          remediationMsg) ∧
    (main env o pid st).trace = [] ∧
    (main env o pid st).state = st ∧
    (main env o pid st).rmRasters = [] := by
  simp [main, hw, vAreaWeighMissingMsg]

/-- Witness for C1 at a concrete environment without `v.area.weigh`. -/
theorem missing_capability_fail_fast_witness :
    envAbsent.hasVAreaWeigh = false ∧
    ((main envAbsent demoOpts 7 gapState).fatal =
        some ("The v.area.weigh module was not found, install it first:" ++ "\n" ++
          remediationMsg) ∧
     (main envAbsent demoOpts 7 gapState).trace = [] ∧
     (main envAbsent demoOpts 7 gapState).state = gapState ∧
     (main envAbsent demoOpts 7 gapState).rmRasters = []) :=
  ⟨rfl, missing_capability_fail_fast envAbsent demoOpts 7 gapState rfl⟩

/-- C2: whenever the run reaches the weighting pipeline (the capability
check passed), the external operations are invoked in exactly the order
mask-set on the urban vector, grow by 1.01, grow by -1.01, mask
release, the cell-wise map-algebra merge, and `v.area.weigh` — nothing
else is interleaved. -/
theorem operations_in_exact_order (env : Env) (o : ScriptOptions) (pid : ℕ)
    (st : GrassState) (hw : env.hasVAreaWeigh = true) :
    (main env o pid st).trace =
      [Op.maskSet o.urban_vector,
       Op.grow o.population_raster (grownName o.population_raster pid) radGrow,
       Op.grow (grownName o.population_raster pid)
         (shrunkName o.population_raster pid) radShrink,
       Op.maskRelease,
       Op.mapcalcIfIsnull (popTempName pid) o.population_raster
         (shrunkName o.population_raster pid) o.population_raster,
       Op.areaWeigh o.population_vector o.population_column (popTempName pid)
         o.output] := by
  simp [main, hw]

/-- Witness for C2 at a concrete run. -/
theorem operations_in_exact_order_witness :
    envOk.hasVAreaWeigh = true ∧
    (main envOk demoOpts 7 gapState).trace =
      [Op.maskSet demoOpts.urban_vector,
       Op.grow demoOpts.population_raster (grownName demoOpts.population_raster 7)
         radGrow,
       Op.grow (grownName demoOpts.population_raster 7)
         (shrunkName demoOpts.population_raster 7) radShrink,
       Op.maskRelease,
       Op.mapcalcIfIsnull (popTempName 7) demoOpts.population_raster
         (shrunkName demoOpts.population_raster 7) demoOpts.population_raster,
       Op.areaWeigh demoOpts.population_vector demoOpts.population_column
         (popTempName 7) demoOpts.output] :=
  ⟨rfl, operations_in_exact_order envOk demoOpts 7 gapState rfl⟩

/-- C10: the `population_column` option undergoes no validation or
defaulting: whatever string it holds (the empty string included) is the
column argument of the final `v.area.weigh` invocation, verbatim. -/
theorem column_passed_verbatim (env : Env) (o : ScriptOptions) (pid : ℕ)
    (st : GrassState) (hw : env.hasVAreaWeigh = true) :
    (main env o pid st).trace.getLast? =
      some (Op.areaWeigh o.population_vector o.population_column (popTempName pid)
        o.output) := by
  simp [main, hw]

/-- Witness for C10 with the column option left empty: the empty string
reaches `v.area.weigh` unchanged. -/
theorem column_passed_verbatim_witness :
    envOk.hasVAreaWeigh = true ∧
    (main envOk demoOptsNoCol 7 gapState).trace.getLast? =
      some (Op.areaWeigh demoOptsNoCol.population_vector "" (popTempName 7)
        demoOptsNoCol.output) :=
  ⟨rfl, column_passed_verbatim envOk demoOptsNoCol 7 gapState rfl⟩

theorem main_popTemp (env : Env) (o : ScriptOptions) (pid : ℕ) (st : GrassState)
    (hw : env.hasVAreaWeigh = true) (hout : o.output ≠ popTempName pid) :
    getR (main env o pid st).state (popTempName pid) =
      compositeRaster (st.vectors o.urban_vector) (getR st o.population_raster) := by
  have hpn_out : popTempName pid ≠ o.output := Ne.symm hout
  have hbase_t1 : o.population_raster ≠ grownName o.population_raster pid :=
    Ne.symm (grownName_ne_base _ _)
  have hbase_t2 : o.population_raster ≠ shrunkName o.population_raster pid :=
    Ne.symm (shrunkName_ne_base _ _)
  funext c
  rw [main_state_eq env o pid st hw]
  simp only [v_area_weigh, r_mapcalc_if_isnull, getR_setR_same,
    getR_setR_ne hpn_out, mask_mask_remove, getR_mask_remove,
    getR_grow_ne hbase_t1, getR_grow_ne hbase_t2, getR_grow_same, mask_grow,
    mask_mask_set, getR_mask_set, applyMask_none_apply]
  rfl

theorem composite_outside (urban : Cell → Bool) (r : Raster) {c : Cell}
    (h : urban c = false) : compositeRaster urban r c = r c := by
  have hclosed : closedRaster urban r c = none := by
    simp [closedRaster, applyMask, h]
  unfold compositeRaster
  rw [hclosed]
  cases hrc : r c with
  | none => simp [hrc]
  | some v => simp [hrc]

/-- C3: the merge step is cell-wise: where the original (unmasked)
population-density raster is nodata the composite weighting raster
takes the value of the grown-then-shrunk urban-restricted raster, and
everywhere else it takes the value of the original raster. -/
theorem merge_if_isnull (env : Env) (o : ScriptOptions) (pid : ℕ) (st : GrassState)
    (hw : env.hasVAreaWeigh = true) (hout : o.output ≠ popTempName pid) (c : Cell) :
    getR (main env o pid st).state (popTempName pid) c =
      if (getR st o.population_raster c).isNone
      then closedRaster (st.vectors o.urban_vector) (getR st o.population_raster) c
      else getR st o.population_raster c := by
  rw [main_popTemp env o pid st hw hout]
  rfl

/-- Witness for C3 at a concrete run and cell. -/
theorem merge_if_isnull_witness :
    envOk.hasVAreaWeigh = true ∧ demoOpts.output ≠ popTempName 7 ∧
    getR (main envOk demoOpts 7 gapState).state (popTempName 7) ((0 : ℤ), (0 : ℤ)) =
      if (getR gapState demoOpts.population_raster ((0 : ℤ), (0 : ℤ))).isNone
      then closedRaster (gapState.vectors demoOpts.urban_vector)
        (getR gapState demoOpts.population_raster) ((0 : ℤ), (0 : ℤ))
      else getR gapState demoOpts.population_raster ((0 : ℤ), (0 : ℤ)) :=
  ⟨rfl, by decide,
   merge_if_isnull envOk demoOpts 7 gapState rfl (by decide) ((0 : ℤ), (0 : ℤ))⟩

/-- C4: at every cell outside the urban extent the composite weighting
raster equals the original population-density raster, nodata included —
the mask confines the grow/shrink pass to the urban footprint, so
outside it the restricted raster is nodata and the merge yields the
original cell value. -/
theorem non_urban_pass_through (env : Env) (o : ScriptOptions) (pid : ℕ)
    (st : GrassState) (hw : env.hasVAreaWeigh = true)
    (hout : o.output ≠ popTempName pid) (c : Cell)
    (hc : st.vectors o.urban_vector c = false) :
    getR (main env o pid st).state (popTempName pid) c =
      getR st o.population_raster c := by
  rw [main_popTemp env o pid st hw hout]
  exact composite_outside _ _ hc

/-- Witness for C4 at a non-urban cell of a concrete run. -/
theorem non_urban_pass_through_witness :
    envOk.hasVAreaWeigh = true ∧ demoOpts.output ≠ popTempName 7 ∧
    halfUrbanState.vectors demoOpts.urban_vector ((7 : ℤ), (0 : ℤ)) = false ∧
    getR (main envOk demoOpts 7 halfUrbanState).state (popTempName 7)
        ((7 : ℤ), (0 : ℤ)) =
      getR halfUrbanState demoOpts.population_raster ((7 : ℤ), (0 : ℤ)) :=
  ⟨rfl, by decide, by decide,
   non_urban_pass_through envOk demoOpts 7 halfUrbanState rfl (by decide)
     ((7 : ℤ), (0 : ℤ)) (by decide)⟩

/-- C5: when the urban extent is empty the weighting-surface build
degrades to pass-through: the composite weighting raster equals the
original population-density raster at every cell (no failure is
modelled for this case — the operations are total on an empty
footprint). -/
theorem empty_urban_pass_through (env : Env) (o : ScriptOptions) (pid : ℕ)
    (st : GrassState) (hw : env.hasVAreaWeigh = true)
    (hout : o.output ≠ popTempName pid)
    (hurb : ∀ c, st.vectors o.urban_vector c = false) :
    getR (main env o pid st).state (popTempName pid) =
      getR st o.population_raster := by
  funext c
  rw [main_popTemp env o pid st hw hout]
  exact composite_outside _ _ (hurb c)

/-- Witness for C5 on a concrete state with an empty urban extent. -/
theorem empty_urban_pass_through_witness :
    envOk.hasVAreaWeigh = true ∧ demoOpts.output ≠ popTempName 7 ∧
    (∀ c, emptyUrbanState.vectors demoOpts.urban_vector c = false) ∧
    getR (main envOk demoOpts 7 emptyUrbanState).state (popTempName 7) =
      getR emptyUrbanState demoOpts.population_raster :=
  ⟨rfl, by decide, fun _ => rfl,
   empty_urban_pass_through envOk demoOpts 7 emptyUrbanState rfl (by decide)
     (fun _ => rfl)⟩

theorem rasters_setR_self (st : GrassState) (n : String) (r : Raster) :
    (setR st n r).rasters n = some r := by
  simp [setR]

theorem rasters_setR_ne {st : GrassState} {n m : String} {r : Raster} (h : m ≠ n) :
    (setR st n r).rasters m = st.rasters m := by
  simp [setR, h]

theorem removeIfPresent_ok (s : GrassState) (n : String) :
    removeIfPresent s n = Except.ok (removePure s n) := by
  unfold removeIfPresent removePure g_remove_raster find_file_raster
  by_cases h : (s.rasters n).isSome
  · simp [h]
  · simp [h, pure, Except.pure]

theorem foldlM_removeIfPresent (rm : List String) (st : GrassState) :
    rm.foldlM removeIfPresent st = Except.ok (rm.foldl removePure st) := by
  induction rm generalizing st with
  | nil => rfl
  | cons a as ih =>
      rw [List.foldlM_cons, removeIfPresent_ok]
      rw [List.foldl_cons]
      exact ih (removePure st a)

theorem cleanup_eq (rm : List String) (st : GrassState) :
    cleanup rm st = Except.ok (maskClearPure (rm.foldl removePure st)) := by
  unfold cleanup maskClearPure
  rw [foldlM_removeIfPresent]
  by_cases h : mask_file_present (rm.foldl removePure st)
  · simp [h, Bind.bind, Except.bind, pure, Except.pure]
  · simp [h, Bind.bind, Except.bind, pure, Except.pure]

theorem mask_maskClearPure (st : GrassState) : (maskClearPure st).mask = none := by
  unfold maskClearPure tryRelease r_mask_release_f mask_file_present
  cases hm : st.mask with
  | none => simp [hm]
  | some m => simp [hm]

theorem rasters_maskClearPure (st : GrassState) :
    (maskClearPure st).rasters = st.rasters := by
  unfold maskClearPure tryRelease r_mask_release_f mask_file_present
  cases hm : st.mask with
  | none => simp [hm]
  | some m => simp [hm]

theorem removePure_rasters_self (st : GrassState) (n : String) :
    (removePure st n).rasters n = none := by
  unfold removePure find_file_raster
  by_cases h : (st.rasters n).isSome
  · simp [h]
  · cases hx : st.rasters n with
    | none => simp [h, hx]
    | some r => rw [hx] at h; exact absurd rfl h

theorem removePure_rasters_ne {st : GrassState} {n m : String} (h : m ≠ n) :
    (removePure st n).rasters m = st.rasters m := by
  unfold removePure find_file_raster
  by_cases hp : (st.rasters n).isSome
  · simp [hp, h]
  · simp [hp]

theorem foldl_removePure_not_mem (rm : List String) :
    ∀ (st : GrassState) (n : String), n ∉ rm →
      (rm.foldl removePure st).rasters n = st.rasters n := by
  induction rm with
  | nil => intro st n _; rfl
  | cons a as ih =>
      intro st n hn
      rw [List.foldl_cons]
      have hna : n ≠ a := fun h => hn (h ▸ List.mem_cons_self a as)
      rw [ih (removePure st a) n (fun h => hn (List.mem_cons_of_mem a h))]
      exact removePure_rasters_ne hna

theorem foldl_removePure_mem (rm : List String) :
    ∀ (st : GrassState) (n : String), n ∈ rm →
      (rm.foldl removePure st).rasters n = none := by
  induction rm with
  | nil => intro st n hn; exact absurd hn (List.not_mem_nil n)
  | cons a as ih =>
      intro st n hn
      rw [List.foldl_cons]
      by_cases has : n ∈ as
      · exact ih (removePure st a) n has
      · have hna : n = a := by
          rcases List.mem_cons.mp hn with h | h
          · exact h
          · exact absurd h has
        rw [foldl_removePure_not_mem as (removePure st a) n has, hna]
        exact removePure_rasters_self st a

/-- C6: the cleanup routine never raises: whatever the registered list
and the state at teardown (mask already absent, intermediate rasters
already removed, a prior failure mid-run), `cleanup` returns normally —
the removals are guarded by the existence check and the mask release is
guarded and wrapped in the swallowing handler. -/
theorem cleanup_never_raises (rm : List String) (st : GrassState) :
    ∃ st', cleanup rm st = Except.ok st' :=
  ⟨_, cleanup_eq rm st⟩

/-- C9: only the three pid-suffixed intermediate rasters are registered
in `rm_rasters`; the output raster is not among them (its name being
distinct from the three), so cleanup after a successful run removes the
intermediates and any mask but leaves the output raster in place. -/
theorem output_not_cleaned (env : Env) (o : ScriptOptions) (pid : ℕ)
    (st : GrassState) (hw : env.hasVAreaWeigh = true)
    (h1 : o.output ≠ grownName o.population_raster pid)
    (h2 : o.output ≠ shrunkName o.population_raster pid)
    (h3 : o.output ≠ popTempName pid) :
    (main env o pid st).rmRasters = tempNames o pid ∧
    o.output ∉ (main env o pid st).rmRasters ∧
    ((main env o pid st).state.rasters o.output).isSome = true ∧
    ∃ st', cleanup (main env o pid st).rmRasters (main env o pid st).state =
        Except.ok st' ∧
      st'.mask = none ∧
      (∀ n ∈ (main env o pid st).rmRasters, st'.rasters n = none) ∧
      st'.rasters o.output = (main env o pid st).state.rasters o.output := by
  have hrm : (main env o pid st).rmRasters = tempNames o pid := by
    simp [main, hw, tempNames]
  have hnotin : o.output ∉ (main env o pid st).rmRasters := by
    rw [hrm]
    simp [tempNames, h1, h2, h3]
  refine ⟨hrm, hnotin, ?_, ?_⟩
  · rw [main_state_eq env o pid st hw]
    unfold v_area_weigh
    rw [rasters_setR_self]
    rfl
  · refine ⟨_, cleanup_eq _ _, mask_maskClearPure _, ?_, ?_⟩
    · intro n hn
      rw [rasters_maskClearPure]
      exact foldl_removePure_mem _ _ _ hn
    · rw [rasters_maskClearPure]
      exact foldl_removePure_not_mem _ _ _ hnotin

theorem rmAfter_mono (env : Env) (o : ScriptOptions) (pid : ℕ) {j j' : ℕ}
    (h : j ≤ j') : rmAfter env o pid j ⊆ rmAfter env o pid j' := by
  intro n hn
  unfold rmAfter at hn ⊢
  rcases List.mem_append.mp hn with h1 | h1
  · refine List.mem_append.mpr (Or.inl ?_)
    by_cases hc : env.hasVAreaWeigh = true ∧ 2 ≤ j
    · rw [if_pos hc] at h1
      rw [if_pos ⟨hc.1, hc.2.trans h⟩]
      exact h1
    · rw [if_neg hc] at h1
      exact absurd h1 (List.not_mem_nil n)
  · refine List.mem_append.mpr (Or.inr ?_)
    by_cases hc : env.hasVAreaWeigh = true ∧ 5 ≤ j
    · rw [if_pos hc] at h1
      rw [if_pos ⟨hc.1, hc.2.trans h⟩]
      exact h1
    · rw [if_neg hc] at h1
      exact absurd h1 (List.not_mem_nil n)

theorem grown_mem_rmAfter {env : Env} (o : ScriptOptions) (pid : ℕ)
    (hw : env.hasVAreaWeigh = true) {j : ℕ} (hj : 2 ≤ j) :
    grownName o.population_raster pid ∈ rmAfter env o pid j := by
  unfold rmAfter
  rw [if_pos ⟨hw, hj⟩]
  exact List.mem_append.mpr (Or.inl (List.mem_cons_self _ _))

theorem shrunk_mem_rmAfter {env : Env} (o : ScriptOptions) (pid : ℕ)
    (hw : env.hasVAreaWeigh = true) {j : ℕ} (hj : 2 ≤ j) :
    shrunkName o.population_raster pid ∈ rmAfter env o pid j := by
  unfold rmAfter
  rw [if_pos ⟨hw, hj⟩]
  exact List.mem_append.mpr (Or.inl (List.mem_cons_of_mem _ (List.mem_cons_self _ _)))

theorem popTemp_mem_rmAfter {env : Env} (o : ScriptOptions) (pid : ℕ)
    (hw : env.hasVAreaWeigh = true) {j : ℕ} (hj : 5 ≤ j) :
    popTempName pid ∈ rmAfter env o pid j := by
  unfold rmAfter
  by_cases hc : env.hasVAreaWeigh = true ∧ 2 ≤ j
  · rw [if_pos hc, if_pos ⟨hw, hj⟩]
    exact List.mem_append.mpr (Or.inr (List.mem_cons_self _ _))
  · rw [if_neg hc, if_pos ⟨hw, hj⟩]
    exact List.mem_append.mpr (Or.inr (List.mem_cons_self _ _))

theorem stateAfter_succ (env : Env) (o : ScriptOptions) (pid : ℕ) (st : GrassState)
    (k : ℕ) :
    stateAfter env o pid st (k + 1) =
      applyStep env o pid (k + 1) (stateAfter env o pid st k) := rfl

theorem stateAfter_six (env : Env) (o : ScriptOptions) (pid : ℕ) (st : GrassState)
    (hw : env.hasVAreaWeigh = true) :
    stateAfter env o pid st 6 = (main env o pid st).state := by
  have h : stateAfter env o pid st 6 =
      applyStep env o pid 6 (applyStep env o pid 5 (applyStep env o pid 4
        (applyStep env o pid 3 (applyStep env o pid 2
          (applyStep env o pid 1 st))))) := rfl
  rw [h]
  simp [applyStep, hw, main]

theorem rmAfter_six (env : Env) (o : ScriptOptions) (pid : ℕ) (st : GrassState)
    (hw : env.hasVAreaWeigh = true) :
    rmAfter env o pid 6 = (main env o pid st).rmRasters := by
  simp [rmAfter, hw, main]

theorem stateAfter_no_capability (env : Env) (o : ScriptOptions) (pid : ℕ)
    (st : GrassState) (hw : env.hasVAreaWeigh = false) :
    ∀ k, stateAfter env o pid st k = st := by
  intro k
  induction k with
  | zero => rfl
  | succ k ih => rw [stateAfter_succ]; simp [applyStep, hw, ih]

theorem rmAfter_no_capability (env : Env) (o : ScriptOptions) (pid : ℕ)
    (hw : env.hasVAreaWeigh = false) (j : ℕ) : rmAfter env o pid j = [] := by
  simp [rmAfter, hw]

theorem temps_invariant (env : Env) (o : ScriptOptions) (pid : ℕ) (st : GrassState)
    (hinit : ∀ n ∈ tempNames o pid, st.rasters n = none) :
    ∀ k, ∀ n ∈ tempNames o pid,
      (stateAfter env o pid st k).rasters n = none ∨
        n ∈ rmAfter env o pid (k + 1) := by
  intro k
  induction k with
  | zero => exact fun n hn => Or.inl (hinit n hn)
  | succ k ih =>
      intro n hn
      rcases ih n hn with hnone | hmem
      case inr =>
        exact Or.inr (rmAfter_mono env o pid (by omega) hmem)
      rw [stateAfter_succ]
      by_cases hw : env.hasVAreaWeigh = true
      case neg =>
        unfold applyStep
        rw [if_neg hw]
        exact Or.inl hnone
      rcases hn3 : k with _ | _ | _ | _ | _ | _ | k'
      · -- step 1: mask set, rasters unchanged
        subst hn3
        unfold applyStep
        simp only [hw, if_true]
        norm_num
        exact Or.inl hnone
      · -- step 2: writes the grown raster
        subst hn3
        unfold applyStep
        simp only [hw, if_true]
        norm_num
        unfold r_grow
        by_cases he : n = grownName o.population_raster pid
        · exact Or.inr (he ▸ grown_mem_rmAfter o pid hw (by omega))
        · rw [rasters_setR_ne he]
          exact Or.inl hnone
      · -- step 3: writes the shrunk raster
        subst hn3
        unfold applyStep
        simp only [hw, if_true]
        norm_num
        unfold r_grow
        by_cases he : n = shrunkName o.population_raster pid
        · exact Or.inr (he ▸ shrunk_mem_rmAfter o pid hw (by omega))
        · rw [rasters_setR_ne he]
          exact Or.inl hnone
      · -- step 4: mask release, rasters unchanged
        subst hn3
        unfold applyStep
        simp only [hw, if_true]
        norm_num
        exact Or.inl hnone
      · -- step 5: writes the merged raster
        subst hn3
        unfold applyStep
        simp only [hw, if_true]
        norm_num
        unfold r_mapcalc_if_isnull
        by_cases he : n = popTempName pid
        · exact Or.inr (he ▸ popTemp_mem_rmAfter o pid hw (by omega))
        · rw [rasters_setR_ne he]
          exact Or.inl hnone
      · -- step 6: writes the output raster; every temp name is
        -- registered by now, so a clash with the output name is harmless
        subst hn3
        unfold applyStep
        simp only [hw, if_true]
        norm_num
        unfold v_area_weigh
        by_cases he : n = o.output
        · refine Or.inr ?_
          rcases List.mem_cons.mp hn with h | h
          · exact h ▸ grown_mem_rmAfter o pid hw (by omega)
          rcases List.mem_cons.mp h with h' | h'
          · exact h' ▸ shrunk_mem_rmAfter o pid hw (by omega)
          rcases List.mem_cons.mp h' with h'' | h''
          · exact h'' ▸ popTemp_mem_rmAfter o pid hw (by omega)
          · exact absurd h'' (List.not_mem_nil n)
        · rw [rasters_setR_ne he]
          exact Or.inl hnone
      · -- steps beyond 6 do nothing
        subst hn3
        unfold applyStep
        simp only [hw, if_true]
        have g1 : ¬ (k' + 7 = 1) := by omega
        have g2 : ¬ (k' + 7 = 2) := by omega
        have g3 : ¬ (k' + 7 = 3) := by omega
        have g4 : ¬ (k' + 7 = 4) := by omega
        have g5 : ¬ (k' + 7 = 5) := by omega
        have g6 : ¬ (k' + 7 = 6) := by omega
        rw [if_neg g1, if_neg g2, if_neg g3, if_neg g4, if_neg g5, if_neg g6]
        exact Or.inl hnone

/-- C7: for every termination point of the run — the fatal capability
exit, a failure during any of the six external operations, or normal
completion — the `atexit` cleanup of the registered rasters leaves a
state in which none of the run's three pid-suffixed intermediate
rasters exists and no mask is active (assuming the location did not
already contain rasters by those pid-unique names). -/
theorem cleanup_completeness (env : Env) (o : ScriptOptions) (pid : ℕ)
    (st : GrassState) (k : ℕ)
    (hinit : ∀ n ∈ tempNames o pid, st.rasters n = none) :
    ∃ st', cleanup (rmAfter env o pid (k + 1)) (stateAfter env o pid st k) =
        Except.ok st' ∧
      st'.mask = none ∧
      ∀ n ∈ tempNames o pid, st'.rasters n = none := by
  refine ⟨_, cleanup_eq _ _, mask_maskClearPure _, ?_⟩
  intro n hn
  rw [rasters_maskClearPure]
  by_cases hmem : n ∈ rmAfter env o pid (k + 1)
  · exact foldl_removePure_mem _ _ _ hmem
  · rw [foldl_removePure_not_mem _ _ _ hmem]
    rcases temps_invariant env o pid st hinit k n hn with h | h
    · exact h
    · exact absurd h hmem

/-- Witness for C7 at a concrete run interrupted after the shrink
step. -/
theorem cleanup_completeness_witness :
    (∀ n ∈ tempNames demoOpts 7, gapState.rasters n = none) ∧
    ∃ st', cleanup (rmAfter envOk demoOpts 7 (3 + 1))
        (stateAfter envOk demoOpts 7 gapState 3) = Except.ok st' ∧
      st'.mask = none ∧
      ∀ n ∈ tempNames demoOpts 7, st'.rasters n = none :=
  ⟨by intro n hn; fin_cases hn <;> rfl,
   cleanup_completeness envOk demoOpts 7 gapState 3
     (by intro n hn; fin_cases hn <;> rfl)⟩

/-- Witness for C9 at a concrete successful run. -/
theorem output_not_cleaned_witness :
    envOk.hasVAreaWeigh = true ∧
    demoOpts.output ≠ grownName demoOpts.population_raster 7 ∧
    demoOpts.output ≠ shrunkName demoOpts.population_raster 7 ∧
    demoOpts.output ≠ popTempName 7 ∧
    ((main envOk demoOpts 7 gapState).rmRasters = tempNames demoOpts 7 ∧
     demoOpts.output ∉ (main envOk demoOpts 7 gapState).rmRasters ∧
     ((main envOk demoOpts 7 gapState).state.rasters demoOpts.output).isSome = true ∧
     ∃ st', cleanup (main envOk demoOpts 7 gapState).rmRasters
         (main envOk demoOpts 7 gapState).state = Except.ok st' ∧
       st'.mask = none ∧
       (∀ n ∈ (main envOk demoOpts 7 gapState).rmRasters, st'.rasters n = none) ∧
       st'.rasters demoOpts.output =
         (main envOk demoOpts 7 gapState).state.rasters demoOpts.output) :=
  ⟨rfl, by decide, by decide, by decide,
   output_not_cleaned envOk demoOpts 7 gapState rfl (by decide) (by decide)
     (by decide)⟩

theorem grownRaster_isSome (urban : Cell → Bool) (r : Raster) (c : Cell)
    (hu : urban c = true)
    (he : ∃ e ∈ offsets radGrow, urban (c.1 + e.1, c.2 + e.2) = true ∧
      (r (c.1 + e.1, c.2 + e.2)).isSome = true) :
    ∃ v, grownRaster urban r c = some v := by
  have hpos : (0 : ℚ) ≤ radGrow := by decide
  unfold grownRaster rGrowFn
  rw [if_pos hpos]
  simp only [applyMask, hu, if_true]
  unfold growCell
  cases hmc : applyMask (some urban) r c with
  | some v => exact ⟨v, rfl⟩
  | none =>
      obtain ⟨e, hme, hue, hse⟩ := he
      rcases hl : (offsets radGrow).filterMap
          (fun d => applyMask (some urban) r (c.1 + d.1, c.2 + d.2)) with _ | ⟨a, as⟩
      · exfalso
        have hnone := List.filterMap_eq_nil_iff.mp hl e hme
        have hrnone : r (c.1 + e.1, c.2 + e.2) = none := by
          simpa [applyMask, hue] using hnone
        rw [hrnone] at hse
        exact Bool.false_ne_true hse
      · exact ⟨a, by rw [hl]; rfl⟩

/-- C8 (counterexample): for the density raster with data exactly at
the two cells `(0,0)` and `(2,0)` separated by the single nodata cell
`(1,0)`, everything urban, the composite weighting raster is still
nodata at the gap cell — the 1.01-radius shrink re-opens the gap that
the 1.01-radius grow filled, because the cells beside the gap remain
nodata after the grow. -/
theorem gap_closing_counterexample :
    getR gapState demoOpts.population_raster ((0 : ℤ), (0 : ℤ)) = some 1 ∧
    getR gapState demoOpts.population_raster ((2 : ℤ), (0 : ℤ)) = some 1 ∧
    getR gapState demoOpts.population_raster ((1 : ℤ), (0 : ℤ)) = none ∧
    gapState.vectors demoOpts.urban_vector ((1 : ℤ), (0 : ℤ)) = true ∧
    envOk.hasVAreaWeigh = true ∧
    getR (main envOk demoOpts 1 gapState).state (popTempName 1)
      ((1 : ℤ), (0 : ℤ)) = none := by
  refine ⟨by decide, by decide, by decide, rfl, rfl, by decide⟩

/-- C8 (amended): the 1.01-radius grow does give the gap cell a defined
value, and the composite weighting raster is defined at a cell `g`
whenever every cell within radius 1.01 of `g` lies in the urban extent
and is itself within radius 1.01 of a defined density cell in the urban
extent — the situation of a one-cell gap between multi-cell structures
such as building walls.  (For two isolated single defined cells the
flanking cells of the gap stay nodata after the grow, the shrink
re-opens the gap, and the claim fails; see the counterexample.) -/
theorem gap_closing_amended (env : Env) (o : ScriptOptions) (pid : ℕ)
    (st : GrassState) (g : Cell) (hw : env.hasVAreaWeigh = true)
    (hout : o.output ≠ popTempName pid)
    (hg : ∀ d ∈ offsets radGrow,
      st.vectors o.urban_vector (g.1 + d.1, g.2 + d.2) = true ∧
      ∃ e ∈ offsets radGrow,
        st.vectors o.urban_vector (g.1 + d.1 + e.1, g.2 + d.2 + e.2) = true ∧
        (getR st o.population_raster (g.1 + d.1 + e.1, g.2 + d.2 + e.2)).isSome
          = true) :
    (getR (main env o pid st).state (popTempName pid) g).isSome = true := by
  have h00 : ((0, 0) : Cell) ∈ offsets radGrow := by decide
  have hneg : ¬ (0 : ℚ) ≤ radShrink := by decide
  have hoff : offsets (-radShrink) = offsets radGrow := by decide
  rw [main_popTemp env o pid st hw hout]
  have hurbg : st.vectors o.urban_vector g = true := by
    have h := (hg (0, 0) h00).1
    simpa using h
  -- the grown raster is defined on the whole radius-1.01 neighbourhood of g
  have hgrown : ∀ d ∈ offsets radGrow,
      ∃ v, grownRaster (st.vectors o.urban_vector) (getR st o.population_raster)
        (g.1 + d.1, g.2 + d.2) = some v := by
    intro d hd
    obtain ⟨hud, he⟩ := hg d hd
    exact grownRaster_isSome _ _ _ hud he
  obtain ⟨vg, hvg⟩ := hgrown (0, 0) h00
  have hvg' : grownRaster (st.vectors o.urban_vector) (getR st o.population_raster) g
      = some vg := by
    simpa using hvg
  simp only [compositeRaster]
  cases hR : getR st o.population_raster g with
  | some v => simp [hR]
  | none =>
      simp only [hR, Option.isNone_none, if_true]
      unfold closedRaster rGrowFn
      rw [if_neg hneg]
      simp only [applyMask, hurbg, if_true]
      unfold shrinkCell
      have hMg : applyMask (some (st.vectors o.urban_vector))
          (grownRaster (st.vectors o.urban_vector) (getR st o.population_raster)) g
          = some vg := by
        simp [applyMask, hurbg, hvg']
      rw [hMg]
      have hall : ((offsets (-radShrink)).all (fun d =>
          (applyMask (some (st.vectors o.urban_vector))
            (grownRaster (st.vectors o.urban_vector) (getR st o.population_raster))
            (g.1 + d.1, g.2 + d.2)).isSome)) = true := by
        rw [hoff]
        apply List.all_eq_true.mpr
        intro d hd
        obtain ⟨w, hwv⟩ := hgrown d hd
        have hud : st.vectors o.urban_vector (g.1 + d.1, g.2 + d.2) = true :=
          (hg d hd).1
        simp [applyMask, hud, hwv]
      rw [hall]
      rfl

/-- Witness for the amended C8: two three-cell walls one cell apart,
everything urban — the composite weighting raster is defined at the gap
cell `(1,0)`. -/
theorem gap_closing_amended_witness :
    envOk.hasVAreaWeigh = true ∧ demoOpts.output ≠ popTempName 7 ∧
    (∀ d ∈ offsets radGrow,
      wallState.vectors demoOpts.urban_vector
        (((1 : ℤ), (0 : ℤ)).1 + d.1, ((1 : ℤ), (0 : ℤ)).2 + d.2) = true ∧
      ∃ e ∈ offsets radGrow,
        wallState.vectors demoOpts.urban_vector
          (((1 : ℤ), (0 : ℤ)).1 + d.1 + e.1, ((1 : ℤ), (0 : ℤ)).2 + d.2 + e.2)
          = true ∧
        (getR wallState demoOpts.population_raster
          (((1 : ℤ), (0 : ℤ)).1 + d.1 + e.1, ((1 : ℤ), (0 : ℤ)).2 + d.2 + e.2)).isSome
          = true) ∧
    (getR (main envOk demoOpts 7 wallState).state (popTempName 7)
      ((1 : ℤ), (0 : ℤ))).isSome = true :=
  ⟨rfl, by decide, by decide,
   gap_closing_amended envOk demoOpts 7 wallState ((1 : ℤ), (0 : ℤ)) rfl (by decide)
     (by decide)⟩

end VDisaggPop
